import Mathlib

/-!
Shallow embedding of the school-activities signup client
(`src/static/app.js`): the activity data model, the renderer
(`fetchActivities`), the signup and unregister handlers, and the
message-area (notifier) behaviour, together with theorems settling the
specification claims.

The DOM is modelled as an explicit state record (`AppState`); `setTimeout`
callbacks that hide the message area are modelled as a list of pending
fire times; `console.error` calls are counted. HTTP outcomes are passed
in explicitly: a fetch that rejects is a `netError` / `Except.error`, a
response whose `json()` rejects carries `none` for its body.
-/

/-- An activity as served by `GET /activities`:
`{description, schedule, max_participants, participants: [string]}`. -/
structure Activity where
  description : String
  schedule : String
  max_participants : Nat
  participants : List String
deriving DecidableEq, Repr

/-- One participant row inside a card: the email text and the
`unregisterParticipant(name, email)` removal control attached to its
delete button. -/
structure ParticipantRow where
  email : String
  removeActivity : String
  removeEmail : String
deriving DecidableEq, Repr

/-- The participants section of a card: either the
`No participants yet` placeholder or a list of participant rows. -/
inductive ParticipantsSection where
  | noParticipants
  | rows (items : List ParticipantRow)
deriving DecidableEq, Repr

/-- One activity card as assembled by the template literal in
`fetchActivities`. -/
structure Card where
  name : String
  description : String
  schedule : String
  capacityText : String
  participantsSection : ParticipantsSection
deriving DecidableEq, Repr

/-- An `<option>` element of the activity dropdown. -/
structure OptionEl where
  value : String
  text : String
deriving DecidableEq, Repr

/-- Content of the `activities-list` container: either rendered cards or
raw HTML text (the loading or failure message). -/
inductive ListContent where
  | htmlText (s : String)
  | cards (cs : List Card)
deriving DecidableEq, Repr

/-- The `message` div: its text, its CSS class (`success` / `error*`),
and whether the `hidden` class is on it. -/
structure MessageDiv where
  textContent : String
  className : String
  hidden : Bool
deriving DecidableEq, Repr

/-- The whole client-side state: list container, dropdown, form fields,
message div, pending hide timers (fire times of scheduled `setTimeout`
callbacks) and a count of `console.error` diagnostics. -/
structure AppState where
  activitiesList : ListContent
  activitySelect : List OptionEl
  formEmail : String
  formActivity : String
  message : MessageDiv
  pendingHides : List Nat
  consoleErrors : Nat
deriving DecidableEq, Repr

/-- The fixed failure message rendered when fetching activities fails. -/
def failedToLoadMsg : String := "Failed to load activities. Please try again later."

/-- The placeholder option installed when the dropdown is rebuilt. -/
def selectPlaceholder : OptionEl := { value := "", text := "-- Select an activity --" }

/-- Build one activity card from the template literal: heading, description,
schedule, capacity text `participants.length/max_participants`, and either
participant rows (each with a delete button calling
`unregisterParticipant(name, email)`) or the placeholder, chosen by
`details.participants.length > 0`. -/
def renderCard (name : String) (details : Activity) : Card :=
  { name := name
    description := details.description
    schedule := details.schedule
    capacityText :=
      toString details.participants.length ++ "/" ++ toString details.max_participants
    participantsSection :=
      if details.participants.length > 0 then
        ParticipantsSection.rows
          (details.participants.map (fun email =>
            { email := email, removeActivity := name, removeEmail := email }))
      else
        ParticipantsSection.noParticipants }

/-- How fetching `/activities` can fail: the `fetch` call rejects
(network/transport) or `response.json()` rejects (malformed body).
Both are caught by the same `catch` block. -/
inductive FetchErr where
  | network
  | badJson
deriving DecidableEq, Repr

/-- Model of `fetchActivities(refreshDropdown)`: on success clear the list, rebuild
the dropdown when `refreshDropdown`, and append one card (plus one
dropdown option when `refreshDropdown`) per entry of the activity map;
on any caught error replace the list content with the fixed failure
message and log a diagnostic. It never throws to its caller: it is a
total function into `AppState`. -/
def fetchActivities (refreshDropdown : Bool)
    (result : Except FetchErr (List (String × Activity))) (st : AppState) : AppState :=
  match result with
  | Except.ok activities =>
      let st1 := { st with
        activitiesList := ListContent.cards (activities.map (fun p => renderCard p.1 p.2)) }
      if refreshDropdown then
        { st1 with activitySelect :=
            selectPlaceholder :: activities.map (fun p => { value := p.1, text := p.1 }) }
      else st1
  | Except.error _ =>
      { st with
        activitiesList := ListContent.htmlText failedToLoadMsg
        consoleErrors := st.consoleErrors + 1 }

/-- Parsed JSON body of a signup/unregister response: `message` on
success, `detail` on error, either possibly absent. -/
structure RespBody where
  message : Option String
  detail : Option String
deriving DecidableEq, Repr

/-- Outcome of a signup/unregister request: the fetch rejects
(`netError`), or a response arrives with HTTP status `ok` and a body
that parses to `some` `RespBody` or fails to parse (`none`). -/
inductive MutOutcome where
  | netError
  | resp (ok : Bool) (json : Option RespBody)
deriving DecidableEq, Repr

/-- JavaScript `result.detail || "An error occurred"`: the fallback fires
when `detail` is absent or the empty string (both falsy). -/
def orAnErrorOccurred (detail : Option String) : String :=
  match detail with
  | some d => if d = "" then "An error occurred" else d
  | none => "An error occurred"

/-- Assigning a possibly-absent JS field to `textContent`: an absent
field is `undefined` and is coerced to the string `undefined`. -/
def undefinedToString (o : Option String) : String := o.getD "undefined"

/-- Model of `messageDiv.classList.remove("hidden")` followed by
`setTimeout(() => messageDiv.classList.add("hidden"), 5000)`: unhide the
message area and schedule an independent hide timer 5000 ms from now. -/
def showUnhide (now : Nat) (st : AppState) : AppState :=
  { st with
    message := { st.message with hidden := false }
    pendingHides := st.pendingHides ++ [now + 5000] }

/-- A scheduled hide callback firing at time `t`: it adds the `hidden`
class back, unconditionally, whatever was shown since. -/
def fireHideTimer (t : Nat) (st : AppState) : AppState :=
  if t ∈ st.pendingHides then
    { st with
      message := { st.message with hidden := true }
      pendingHides := st.pendingHides.erase t }
  else st

/-- Response handling of the signup form submit handler. On a parsed
body: success path sets the success message, resets the form and reloads
activities with `refreshDropdown=false`; error path sets
`detail || "An error occurred"`; both then unhide the area and schedule
the 5 s hide timer. A rejected fetch or unparseable body lands in
`catch`: generic error message, area unhidden with NO timer scheduled,
diagnostic logged. -/
def signupRespond (now : Nat) (outcome : MutOutcome)
    (fetchRes : Except FetchErr (List (String × Activity))) (st : AppState) : AppState :=
  match outcome with
  | MutOutcome.netError =>
      { st with
        message := { textContent := "Failed to sign up. Please try again."
                     className := "error", hidden := false }
        consoleErrors := st.consoleErrors + 1 }
  | MutOutcome.resp _ none =>
      { st with
        message := { textContent := "Failed to sign up. Please try again."
                     className := "error", hidden := false }
        consoleErrors := st.consoleErrors + 1 }
  | MutOutcome.resp ok (some body) =>
      let st1 :=
        if ok then
          let st2 := { st with
            message := { st.message with
              textContent := undefinedToString body.message, className := "success" }
            formEmail := ""
            formActivity := "" }
          fetchActivities false fetchRes st2
        else
          { st with message := { st.message with
              textContent := orAnErrorOccurred body.detail, className := "error" } }
      showUnhide now st1

/-- Response handling of `unregisterParticipant`: same shape as the
signup handler, with its own generic catch message and no form reset. -/
def unregisterRespond (now : Nat) (outcome : MutOutcome)
    (fetchRes : Except FetchErr (List (String × Activity))) (st : AppState) : AppState :=
  match outcome with
  | MutOutcome.netError =>
      { st with
        message := { textContent := "Failed to unregister participant. Please try again."
                     className := "error", hidden := false }
        consoleErrors := st.consoleErrors + 1 }
  | MutOutcome.resp _ none =>
      { st with
        message := { textContent := "Failed to unregister participant. Please try again."
                     className := "error", hidden := false }
        consoleErrors := st.consoleErrors + 1 }
  | MutOutcome.resp ok (some body) =>
      let st1 :=
        if ok then
          let st2 := { st with
            message := { st.message with
              textContent := undefinedToString body.message, className := "success" } }
          fetchActivities false fetchRes st2
        else
          { st with message := { st.message with
              textContent := orAnErrorOccurred body.detail, className := "error" } }
      showUnhide now st1

/-- An HTTP request as assembled by the handlers. -/
structure HttpRequest where
  method : String
  url : String
  contentType : String
  body : String
deriving DecidableEq, Repr

/-- Uppercase hex digit for `n < 16`. -/
def hexDigit (n : Nat) : Char :=
  if n < 10 then Char.ofNat (48 + n) else Char.ofNat (55 + n)

/-- The UTF-8 byte sequence of a code point. -/
def utf8Bytes (n : Nat) : List Nat :=
  if n < 128 then [n]
  else if n < 2048 then [192 + n / 64, 128 + n % 64]
  else if n < 65536 then [224 + n / 4096, 128 + (n / 64) % 64, 128 + n % 64]
  else [240 + n / 262144, 128 + (n / 4096) % 64, 128 + (n / 64) % 64, 128 + n % 64]

/-- Percent escape of one byte. -/
def percentByte (b : Nat) : String :=
  String.singleton (Char.ofNat 37) ++
    String.singleton (hexDigit (b / 16)) ++ String.singleton (hexDigit (b % 16))

/-- Characters `encodeURIComponent` leaves unescaped:
`A-Z a-z 0-9 - _ . ! ~ * ' ( )`. -/
def uriUnreservedChar (c : Char) : Bool :=
  c.isAlphanum || c = '-' || c = '_' || c = '.' || c = '!' || c = '~' ||
    c = '*' || c = Char.ofNat 39 || c = '(' || c = ')'

/-- Encode one character as `encodeURIComponent` does: kept verbatim when
unreserved, otherwise each UTF-8 byte percent-escaped. -/
def encodeChar (c : Char) : String :=
  if uriUnreservedChar c then String.singleton c
  else String.join ((utf8Bytes c.toNat).map percentByte)

/-- JavaScript `encodeURIComponent`. -/
def encodeURIComponent (s : String) : String :=
  String.join (s.data.map encodeChar)

/-- The request built by the signup submit handler:
`POST /activities/{activity}/signup`, form-urlencoded, body
`email={value}`, both dynamic parts percent-encoded. -/
def signupRequest (activity email : String) : HttpRequest :=
  { method := "POST"
    url := "/activities/" ++ encodeURIComponent activity ++ "/signup"
    contentType := "application/x-www-form-urlencoded"
    body := "email=" ++ encodeURIComponent email }

/-- The request built by `unregisterParticipant`:
`DELETE /activities/{activityName}/unregister`, form-urlencoded, body
`email={value}`, both dynamic parts percent-encoded. -/
def unregisterRequest (activityName email : String) : HttpRequest :=
  { method := "DELETE"
    url := "/activities/" ++ encodeURIComponent activityName ++ "/unregister"
    contentType := "application/x-www-form-urlencoded"
    body := "email=" ++ encodeURIComponent email }

/-- A concrete base state used by concrete-input theorems. -/
def st0 : AppState :=
  { activitiesList := ListContent.cards []
    activitySelect := [selectPlaceholder]
    formEmail := "a@x.com"
    formActivity := "Chess Club"
    message := { textContent := "", className := "", hidden := true }
    pendingHides := []
    consoleErrors := 0 }

/-- Claim C1: for every activity map successfully fetched and parsed, the
number of cards placed in the list container equals the number of keys of
the map, and each card's capacity text is
`participants.length/max_participants` of its activity. -/
theorem c1_card_count_and_capacity (rd : Bool) (m : List (String × Activity))
    (st : AppState) :
    ∃ cs : List Card,
      (fetchActivities rd (Except.ok m) st).activitiesList = ListContent.cards cs
      ∧ cs.length = m.length
      ∧ ∀ i : Nat, (cs[i]?).map Card.capacityText
          = (m[i]?).map (fun p =>
              toString p.2.participants.length ++ "/" ++ toString p.2.max_participants) := by
  refine ⟨m.map (fun p => renderCard p.1 p.2), ?_, by simp, ?_⟩
  · cases rd <;> simp [fetchActivities]
  · intro i
    rw [List.getElem?_map, Option.map_map]
    cases h : m[i]? <;> simp [renderCard]

/-- Claim C2: a fetched activity with empty `participants` renders the
placeholder and zero rows; one with a non-empty list renders one
participant row per email, in order, each carrying the removal control
`unregisterParticipant(name, email)`. -/
theorem c2_participants_section (rd : Bool) (m : List (String × Activity))
    (st : AppState) :
    ∃ cs : List Card,
      (fetchActivities rd (Except.ok m) st).activitiesList = ListContent.cards cs
      ∧ ∀ i : Nat, (cs[i]?).map Card.participantsSection
          = (m[i]?).map (fun p =>
              if p.2.participants = [] then ParticipantsSection.noParticipants
              else ParticipantsSection.rows (p.2.participants.map (fun e =>
                { email := e, removeActivity := p.1, removeEmail := e }))) := by
  refine ⟨m.map (fun p => renderCard p.1 p.2), ?_, ?_⟩
  · cases rd <;> simp [fetchActivities]
  · intro i
    rw [List.getElem?_map, Option.map_map]
    cases h : m[i]? with
    | none => simp
    | some p =>
        cases hp : p.2.participants <;> simp [renderCard, hp]

/-- Claim C6: whenever the fetch or the JSON parse fails, `fetchActivities`
replaces the list container's content with the fixed failure message
instead of cards; being a total function into `AppState`, it never throws
to its caller. -/
theorem c6_fetch_failure (rd : Bool) (e : FetchErr) (st : AppState) :
    (fetchActivities rd (Except.error e) st).activitiesList
      = ListContent.htmlText "Failed to load activities. Please try again later." := by
  rfl

/-- Claim C8: with `refreshDropdown=true` over a successfully fetched map
of N activities, the dropdown is rebuilt as exactly N+1 options: the
`-- Select an activity --` placeholder first, then one option per
activity name in map order. -/
theorem c8_dropdown_rebuild (m : List (String × Activity)) (st : AppState) :
    (fetchActivities true (Except.ok m) st).activitySelect
        = selectPlaceholder :: m.map (fun p => { value := p.1, text := p.1 })
      ∧ (fetchActivities true (Except.ok m) st).activitySelect.length = m.length + 1 := by
  refine ⟨rfl, ?_⟩
  simp [fetchActivities]

/-- Claim C7: signups go out as `POST /activities/{activity}/signup` and
unregisters as `DELETE /activities/{activityName}/unregister`, both
form-urlencoded with body `email={value}`, the path segment and the email
percent-encoded by `encodeURIComponent` (concrete encodings checked). -/
theorem c7_request_shapes (a e : String) :
    signupRequest a e
        = { method := "POST"
            url := "/activities/" ++ encodeURIComponent a ++ "/signup"
            contentType := "application/x-www-form-urlencoded"
            body := "email=" ++ encodeURIComponent e }
      ∧ unregisterRequest a e
        = { method := "DELETE"
            url := "/activities/" ++ encodeURIComponent a ++ "/unregister"
            contentType := "application/x-www-form-urlencoded"
            body := "email=" ++ encodeURIComponent e }
      ∧ encodeURIComponent "Chess Club" = "Chess%20Club"
      ∧ encodeURIComponent "a+b@x.com" = "a%2Bb%40x.com" := by
  exact ⟨rfl, rfl, by decide, by decide⟩

/-- Claim C10: a signup or unregister whose response is non-2xx (body
parsed or not) never triggers `fetchActivities`: the list container, the
dropdown and the form fields are exactly as before the request. -/
theorem c10_failed_mutation_preserves_view (now : Nat) (j : Option RespBody)
    (fetchRes : Except FetchErr (List (String × Activity))) (st : AppState) :
    ((signupRespond now (MutOutcome.resp false j) fetchRes st).activitiesList
        = st.activitiesList)
      ∧ (signupRespond now (MutOutcome.resp false j) fetchRes st).activitySelect
        = st.activitySelect
      ∧ (signupRespond now (MutOutcome.resp false j) fetchRes st).formEmail
        = st.formEmail
      ∧ (signupRespond now (MutOutcome.resp false j) fetchRes st).formActivity
        = st.formActivity
      ∧ (unregisterRespond now (MutOutcome.resp false j) fetchRes st).activitiesList
        = st.activitiesList
      ∧ (unregisterRespond now (MutOutcome.resp false j) fetchRes st).activitySelect
        = st.activitySelect := by
  cases j <;> simp [signupRespond, unregisterRespond, showUnhide]

/-- Claim C3 counterexample: a signup whose HTTP response IS 2xx but whose
body fails to parse as JSON lands in the catch block: the form is NOT
reset and an error, not a success, notification is shown. -/
theorem c3_counterexample :
    (signupRespond 0 (MutOutcome.resp true none) (Except.ok []) st0).formEmail ≠ ""
      ∧ (signupRespond 0 (MutOutcome.resp true none) (Except.ok []) st0).message.className
        = "error" := by
  exact ⟨by decide, rfl⟩

/-- Claim C3 amended: for every signup whose HTTP response is 2xx AND
whose body parses as JSON, the handler resets the form, shows a success
notification, and reloads activities with `refreshDropdown=false`; the
dropdown's option set is unchanged by the reload. -/
theorem c3_success_signup (now : Nat) (b : RespBody)
    (fetchRes : Except FetchErr (List (String × Activity))) (st : AppState) :
    ((signupRespond now (MutOutcome.resp true (some b)) fetchRes st).formEmail = "")
      ∧ (signupRespond now (MutOutcome.resp true (some b)) fetchRes st).formActivity = ""
      ∧ (signupRespond now (MutOutcome.resp true (some b)) fetchRes st).message.className
        = "success"
      ∧ (signupRespond now (MutOutcome.resp true (some b)) fetchRes st).message.hidden
        = false
      ∧ (signupRespond now (MutOutcome.resp true (some b)) fetchRes st).activitySelect
        = st.activitySelect
      ∧ (signupRespond now (MutOutcome.resp true (some b)) fetchRes st).activitiesList
        = (fetchActivities false fetchRes st).activitiesList := by
  cases fetchRes <;> simp [signupRespond, fetchActivities, showUnhide]

/-- Claim C4 counterexample: the server returns non-2xx with `detail`
present but equal to the empty string; the client displays the generic
fallback `An error occurred`, not the (empty) `detail` value. -/
theorem c4_counterexample :
    (signupRespond 0
        (MutOutcome.resp false (some { message := none, detail := some "" }))
        (Except.ok []) st0).message.textContent = "An error occurred"
      ∧ "An error occurred" ≠ ("" : String) := by
  exact ⟨rfl, by decide⟩

/-- Claim C4 amended: on a non-2xx response with parsed body, the
displayed message equals `detail` when present and non-empty and the
generic `An error occurred` when `detail` is absent or empty; on a
non-2xx response whose body fails to parse, a fixed generic failure
message is shown; in the signup case the form is never reset. -/
theorem c4_error_messages (now : Nat) (b : RespBody)
    (fetchRes : Except FetchErr (List (String × Activity))) (st : AppState) :
    (∀ d : String, b.detail = some d → d ≠ "" →
        (signupRespond now (MutOutcome.resp false (some b)) fetchRes st).message.textContent
            = d
          ∧ (unregisterRespond now (MutOutcome.resp false (some b)) fetchRes
              st).message.textContent = d)
      ∧ (b.detail = none ∨ b.detail = some "" →
          (signupRespond now (MutOutcome.resp false (some b)) fetchRes
              st).message.textContent = "An error occurred"
            ∧ (unregisterRespond now (MutOutcome.resp false (some b)) fetchRes
                st).message.textContent = "An error occurred")
      ∧ (signupRespond now (MutOutcome.resp false none) fetchRes st).message.textContent
        = "Failed to sign up. Please try again."
      ∧ (unregisterRespond now (MutOutcome.resp false none) fetchRes st).message.textContent
        = "Failed to unregister participant. Please try again."
      ∧ (signupRespond now (MutOutcome.resp false (some b)) fetchRes st).formEmail
        = st.formEmail
      ∧ (signupRespond now (MutOutcome.resp false none) fetchRes st).formEmail
        = st.formEmail
      ∧ (signupRespond now (MutOutcome.resp false (some b)) fetchRes st).message.className
        = "error"
      ∧ (unregisterRespond now (MutOutcome.resp false (some b)) fetchRes
          st).message.className = "error" := by
  refine ⟨?_, ?_, rfl, rfl, rfl, rfl, rfl, rfl⟩
  · intro d hd hne
    simp [signupRespond, unregisterRespond, showUnhide, orAnErrorOccurred, hd, hne]
  · intro hd
    rcases hd with hd | hd <;>
      simp [signupRespond, unregisterRespond, showUnhide, orAnErrorOccurred, hd]

/-- Claim C4 witness: the amended claim applied at a concrete non-2xx
response carrying `detail` equal to `Activity is full`. -/
theorem c4_error_messages_witness :
    ((signupRespond 0
        (MutOutcome.resp false (some { message := none, detail := some "Activity is full" }))
        (Except.ok []) st0).message.textContent = "Activity is full")
      ∧ (signupRespond 0
          (MutOutcome.resp false (some { message := none, detail := none }))
          (Except.ok []) st0).message.textContent = "An error occurred" := by
  refine ⟨((c4_error_messages 0 { message := none, detail := some "Activity is full" }
    (Except.ok []) st0).1 "Activity is full" rfl (by decide)).1, ?_⟩
  exact ((c4_error_messages 0 { message := none, detail := none }
    (Except.ok []) st0).2.1 (Or.inl rfl)).1

/-- Claim C5 counterexample: a signup whose fetch rejects (transport
failure) makes the message area visible, yet no 5-second hide timer is
scheduled: the catch block never reaches the `setTimeout` call. -/
theorem c5_counterexample :
    (signupRespond 0 MutOutcome.netError (Except.ok []) st0).message.hidden = false
      ∧ (signupRespond 0 MutOutcome.netError (Except.ok []) st0).pendingHides = [] := by
  exact ⟨rfl, rfl⟩

/-- Claim C5 amended: messages shown on the response path (success or
HTTP error, body parsed) unhide the area and append their own
independent 5-second hide timer, cancelling none of the pending ones;
messages shown on the catch path of either handler (transport failure
or JSON parse failure) unhide the area but schedule no timer; when any
scheduled timer fires while pending, the area is hidden. -/
theorem c5_hide_timers (now t : Nat) (ok : Bool) (b : RespBody)
    (fetchRes : Except FetchErr (List (String × Activity))) (st : AppState) :
    ((signupRespond now (MutOutcome.resp ok (some b)) fetchRes st).message.hidden = false)
      ∧ (signupRespond now (MutOutcome.resp ok (some b)) fetchRes st).pendingHides
        = st.pendingHides ++ [now + 5000]
      ∧ (unregisterRespond now (MutOutcome.resp ok (some b)) fetchRes st).message.hidden
        = false
      ∧ (unregisterRespond now (MutOutcome.resp ok (some b)) fetchRes st).pendingHides
        = st.pendingHides ++ [now + 5000]
      ∧ (signupRespond now MutOutcome.netError fetchRes st).message.hidden = false
      ∧ (signupRespond now MutOutcome.netError fetchRes st).pendingHides = st.pendingHides
      ∧ (unregisterRespond now MutOutcome.netError fetchRes st).message.hidden = false
      ∧ (unregisterRespond now MutOutcome.netError fetchRes st).pendingHides
        = st.pendingHides
      ∧ (signupRespond now (MutOutcome.resp ok none) fetchRes st).message.hidden = false
      ∧ (signupRespond now (MutOutcome.resp ok none) fetchRes st).pendingHides
        = st.pendingHides
      ∧ (unregisterRespond now (MutOutcome.resp ok none) fetchRes st).message.hidden
        = false
      ∧ (unregisterRespond now (MutOutcome.resp ok none) fetchRes st).pendingHides
        = st.pendingHides
      ∧ (t ∈ st.pendingHides → (fireHideTimer t st).message.hidden = true) := by
  refine ⟨?_, ?_, ?_, ?_, rfl, rfl, rfl, rfl, rfl, rfl, rfl, rfl, ?_⟩
  · cases ok <;> cases fetchRes <;>
      simp [signupRespond, fetchActivities, showUnhide]
  · cases ok <;> cases fetchRes <;>
      simp [signupRespond, fetchActivities, showUnhide]
  · cases ok <;> cases fetchRes <;>
      simp [unregisterRespond, fetchActivities, showUnhide]
  · cases ok <;> cases fetchRes <;>
      simp [unregisterRespond, fetchActivities, showUnhide]
  · intro ht
    simp [fireHideTimer, ht]

/-- Claim C5 witness: the amended claim applied at a concrete state with
one pending timer at time 5000, which fires and hides the area. -/
theorem c5_hide_timers_witness :
    (fireHideTimer 5000
        { st0 with pendingHides := [5000] }).message.hidden = true := by
  exact (c5_hide_timers 0 5000 true { message := none, detail := none }
    (Except.ok [])
    { st0 with pendingHides := [5000] }).2.2.2.2.2.2.2.2.2.2.2.2 (by decide)

/-- Claim C9 counterexample: a malformed-JSON failure of the activities
fetch — not a transport failure — still increments the diagnostic log
count, because it is caught by the same catch block. -/
theorem c9_counterexample :
    (fetchActivities true (Except.error FetchErr.badJson) st0).consoleErrors = 1
      ∧ FetchErr.badJson ≠ FetchErr.network := by
  exact ⟨rfl, by decide⟩

/-- Claim C9 amended: a diagnostic is logged exactly when an error
reaches a catch block — a transport failure or a JSON parse failure —
and never for a non-2xx response whose body parses (with or without
`detail`), nor on any success path. -/
theorem c9_diagnostic_logging (rd : Bool) (now : Nat) (e : FetchErr) (b : RespBody)
    (ok : Bool) (m : List (String × Activity)) (st : AppState) :
    ((fetchActivities rd (Except.error e) st).consoleErrors = st.consoleErrors + 1)
      ∧ (fetchActivities rd (Except.ok m) st).consoleErrors = st.consoleErrors
      ∧ (signupRespond now MutOutcome.netError (Except.ok m) st).consoleErrors
        = st.consoleErrors + 1
      ∧ (signupRespond now (MutOutcome.resp ok none) (Except.ok m) st).consoleErrors
        = st.consoleErrors + 1
      ∧ (signupRespond now (MutOutcome.resp false (some b)) (Except.ok m)
          st).consoleErrors = st.consoleErrors
      ∧ (signupRespond now (MutOutcome.resp true (some b)) (Except.ok m)
          st).consoleErrors = st.consoleErrors
      ∧ (unregisterRespond now MutOutcome.netError (Except.ok m) st).consoleErrors
        = st.consoleErrors + 1
      ∧ (unregisterRespond now (MutOutcome.resp ok none) (Except.ok m) st).consoleErrors
        = st.consoleErrors + 1
      ∧ (unregisterRespond now (MutOutcome.resp false (some b)) (Except.ok m)
          st).consoleErrors = st.consoleErrors
      ∧ (unregisterRespond now (MutOutcome.resp true (some b)) (Except.ok m)
          st).consoleErrors = st.consoleErrors := by
  refine ⟨rfl, ?_, rfl, ?_, ?_, ?_, rfl, ?_, ?_, ?_⟩ <;>
    cases ok <;> cases rd <;>
      simp [fetchActivities, signupRespond, unregisterRespond, showUnhide]
